import Mathlib

/-
Verification of the NanoPaaS control plane against its specification.

Shallow embedding of the Go sources:
  * internal/domain/app.go        — `App` and its lifecycle methods
  * internal/domain/build.go      — `Build.GenerateImageTag`
  * internal/domain/deployment.go — `Deployment` records
  * internal/services/orchestrator/orchestrator.go — Deploy / rollback /
    Scale / stopAppContainers / startContainers / checkContainerHealth
  * internal/infrastructure/docker (Client.CreateContainer name prefixing)
  * internal/services/router (TraefikRouter: AddRoute / RemoveRoute /
    UpdateReplicas / generateConfig / convertToYAML)

Modelling conventions:
  * `uuid.UUID` identities are modelled as `Nat`; the build id is kept as
    its `String()` form because only that form is used by the code under test.
  * `time.Now()` is modelled by an explicit `now : Nat` argument.
  * The Docker daemon is modelled by an explicit runtime container list plus
    a `Behavior` oracle deciding whether the k-th CreateContainer /
    StartContainer call succeeds.  Stop/Remove always take effect (the Go
    code only logs or aggregates their errors; no claim depends on them).
  * Go maps are modelled as association lists with in-place update; map
    iteration is modelled in insertion order.
  * Every runtime call is recorded in an operation trace, so "no runtime
    operation is performed" is expressible as trace equality.
-/

namespace NanoPaas

/-- Lifecycle status of an application (domain/app.go `AppStatus`). -/
inductive AppStatus where
  | created
  | building
  | deploying
  | running
  | stopped
  | failed
deriving DecidableEq, Repr

/-- Status of a deployment (domain/deployment.go `DeploymentStatus`). -/
inductive DeploymentStatus where
  | pending
  | running
  | succeeded
  | failed
  | rolledBack
deriving DecidableEq, Repr

/-- Status of a build (domain/build.go `BuildStatus`). -/
inductive BuildStatus where
  | queued
  | running
  | succeeded
  | failed
  | cancelled
deriving DecidableEq, Repr

/-- An application record (domain/app.go `App`).  Timestamps are `Nat`
instants; `uuid.UUID` ids are `Nat`. -/
structure App where
  id : Nat
  name : String
  slug : String
  description : String
  status : AppStatus
  envVars : List (String × String)
  currentImageID : String
  previousImageID : String
  replicas : Int
  targetReplicas : Int
  memoryLimit : Int
  cpuQuota : Int
  subdomain : String
  exposedPort : Int
  createdAt : Nat
  updatedAt : Nat
  startedAt : Option Nat
  stoppedAt : Option Nat
  ownerID : Nat
deriving DecidableEq, Repr

/-- app.go `CanDeploy`. -/
def App.CanDeploy (a : App) : Bool :=
  a.status == .created || a.status == .running || a.status == .stopped || a.status == .failed

/-- app.go `CanScale`. -/
def App.CanScale (a : App) : Bool :=
  a.status == .running

/-- app.go `MarkDeploying`. -/
def App.MarkDeploying (a : App) (now : Nat) : App :=
  { a with status := .deploying, updatedAt := now }

/-- app.go `MarkRunning`. -/
def App.MarkRunning (a : App) (now : Nat) : App :=
  { a with status := .running, startedAt := some now, updatedAt := now }

/-- app.go `MarkStopped`. -/
def App.MarkStopped (a : App) (now : Nat) : App :=
  { a with status := .stopped, stoppedAt := some now, updatedAt := now }

/-- app.go `MarkFailed`. -/
def App.MarkFailed (a : App) (now : Nat) : App :=
  { a with status := .failed, updatedAt := now }

/-- app.go `Rollback`: if there is no previous image it returns `false` and
changes nothing; otherwise it swaps `CurrentImageID` and `PreviousImageID`. -/
def App.Rollback (a : App) (now : Nat) : App × Bool :=
  if a.previousImageID = "" then (a, false)
  else
    ({ a with currentImageID := a.previousImageID,
              previousImageID := a.currentImageID,
              updatedAt := now }, true)

/-- app.go `UpdateImage`: stores the current image as previous and installs
the new one. -/
def App.UpdateImage (a : App) (newImageID : String) (now : Nat) : App :=
  { a with previousImageID := a.currentImageID,
           currentImageID := newImageID,
           updatedAt := now }

/-- app.go `GetContainerName`: the slug for replica 0, otherwise
slug ++ "-" ++ string(rune('0'+replica)). -/
def App.GetContainerName (a : App) (replica : Nat) : String :=
  if replica = 0 then a.slug
  else a.slug ++ "-" ++ (Char.ofNat (48 + replica)).toString

/-- A build record (domain/build.go `Build`); `id` holds the uuid in its
`String()` form, which is the only form `GenerateImageTag` consumes. -/
structure Build where
  id : String
  appID : Nat
  status : BuildStatus
  dockerfilePath : String
  imageTag : String
  imageID : String
  errorMessage : String
deriving DecidableEq, Repr

/-- build.go `GenerateImageTag`: "nanopaas/" + appSlug + ":" + b.ID.String()[:8]. -/
def Build.GenerateImageTag (b : Build) (appSlug : String) : String :=
  "nanopaas/" ++ appSlug ++ ":" ++ b.id.take 8

/-- Default Docker container name prefix (config default
DOCKER_CONTAINER_PREFIX = "nanopaas-", passed to docker.NewClient). -/
def clientNamePre : String := "nanopaas-"

/-- docker client `CreateContainer`: the name passed to the daemon is
containerPrefix + opts.Name. -/
def Client.CreateContainerName (pre : String) (optsName : String) : String :=
  pre ++ optsName

/-- A deployment record (domain/deployment.go `Deployment`). -/
structure Deployment where
  id : Nat
  appID : Nat
  imageID : String
  status : DeploymentStatus
  replicas : Int
  containerIDs : List String
  previousImageID : String
  rollbackReason : String
  errorMessage : String
  createdAt : Nat
  startedAt : Option Nat
  completedAt : Option Nat
deriving DecidableEq, Repr

/-- deployment.go `NewDeployment`; `freshID` models `uuid.New()`. -/
def NewDeployment (freshID appID : Nat) (imageID : String) (replicas : Int)
    (now : Nat) : Deployment :=
  { id := freshID, appID := appID, imageID := imageID, status := .pending,
    replicas := replicas, containerIDs := [], previousImageID := "",
    rollbackReason := "", errorMessage := "", createdAt := now,
    startedAt := none, completedAt := none }

/-- deployment.go `Start`. -/
def Deployment.Start (d : Deployment) (now : Nat) : Deployment :=
  { d with status := .running, startedAt := some now }

/-- deployment.go `Succeed`. -/
def Deployment.Succeed (d : Deployment) (now : Nat) (ids : List String) : Deployment :=
  { d with status := .succeeded, completedAt := some now, containerIDs := ids }

/-- deployment.go `Fail`. -/
def Deployment.Fail (d : Deployment) (now : Nat) (msg : String) : Deployment :=
  { d with status := .failed, completedAt := some now, errorMessage := msg }

/-- deployment.go `MarkRolledBack`. -/
def Deployment.MarkRolledBack (d : Deployment) (now : Nat) (reason : String) : Deployment :=
  { d with status := .rolledBack, completedAt := some now, rollbackReason := reason }

/-- deployment.go `AddContainerID`. -/
def Deployment.AddContainerID (d : Deployment) (cid : String) : Deployment :=
  { d with containerIDs := d.containerIDs ++ [cid] }

/-- One runtime (Docker daemon) call, recorded in the operation trace. -/
inductive Op where
  | create (name : String)
  | start (cid : String)
  | stop (cid : String)
  | remove (cid : String)
  | restart (cid : String)
  | list
  | health (cid : String)
deriving DecidableEq, Repr

/-- A container existing at the runtime: its id and its full (prefixed) name. -/
structure RtContainer where
  cid : String
  cname : String
deriving DecidableEq, Repr

/-- Oracle deciding whether the k-th CreateContainer call and the k-th
StartContainer call issued at the runtime succeed. -/
structure Behavior where
  createOk : Nat → Bool
  startOk : Nat → Bool

/-- Orchestrator-owned state (orchestrator.go `Orchestrator`): the
appID → container-id tracking map, the deployment registry, plus the
modelled runtime side (existing containers, fresh-name counter, call
counters for the `Behavior` oracle, and the trace of runtime calls). -/
structure OrchState where
  appContainers : List (Nat × List String)
  deployments : List (Nat × Deployment)
  runtime : List RtContainer
  freshID : Nat
  creates : Nat
  starts : Nat
  trace : List Op
deriving DecidableEq, Repr

/-- Lookup in an association list modelling a Go map. -/
def lookupEntry {α : Type} : List (Nat × α) → Nat → Option α
  | [], _ => none
  | (k, v) :: rest, key => if k = key then some v else lookupEntry rest key

/-- In-place map write `m[key] = v` (replace, or append for a new key). -/
def setEntry {α : Type} : List (Nat × α) → Nat → α → List (Nat × α)
  | [], key, v => [(key, v)]
  | (k, w) :: rest, key, v =>
    if k = key then (key, v) :: rest else (k, w) :: setEntry rest key v

/-- Go `delete(m, key)`. -/
def eraseEntry {α : Type} : List (Nat × α) → Nat → List (Nat × α)
  | [], _ => []
  | (k, w) :: rest, key =>
    if k = key then eraseEntry rest key else (k, w) :: eraseEntry rest key

/-- Runtime container ids are generated from the fresh counter. -/
def freshContainerID (n : Nat) : String := "c" ++ toString n

/-- docker client `CreateContainer`: on success a fresh container exists at
the runtime under the prefixed name; on failure nothing is created. -/
def createContainer (beh : Behavior) (optsName : String) (s : OrchState) :
    OrchState × Option String :=
  let k := s.creates
  let s1 := { s with creates := k + 1, trace := s.trace ++ [Op.create optsName] }
  if beh.createOk k then
    let cid := freshContainerID s1.freshID
    ({ s1 with freshID := s1.freshID + 1,
               runtime := s1.runtime ++ [⟨cid, clientNamePre ++ optsName⟩] },
     some cid)
  else (s1, none)

/-- docker client `StartContainer`; failure does not remove the container. -/
def startContainer (beh : Behavior) (cid : String) (s : OrchState) :
    OrchState × Bool :=
  let k := s.starts
  ({ s with starts := k + 1, trace := s.trace ++ [Op.start cid] }, beh.startOk k)

/-- docker client `StopContainer` (graceful stop; errors are only logged or
aggregated by the callers, so no failure mode is modelled). -/
def stopContainer (cid : String) (s : OrchState) : OrchState :=
  { s with trace := s.trace ++ [Op.stop cid] }

/-- docker client `RemoveContainer` with force: the container with that id
no longer exists afterwards. -/
def removeContainer (cid : String) (s : OrchState) : OrchState :=
  { s with runtime := s.runtime.filter (fun c => c.cid != cid),
           trace := s.trace ++ [Op.remove cid] }

/-- Cleanup loop `for _, id := range containerIDs { RemoveContainer(id) }`. -/
def removeAll (ids : List String) (s : OrchState) : OrchState :=
  ids.foldl (fun st i => removeContainer i st) s

/-- Read `o.appContainers[appID]` (a missing key reads as the empty slice). -/
def getContainers (s : OrchState) (appID : Nat) : List String :=
  (lookupEntry s.appContainers appID).getD []

/-- orchestrator.go `stopAppContainers`: stop and remove every tracked
container of the app, then delete the tracking entry (the entry is deleted
even when individual stops/removes error). -/
def stopAppContainers (appID : Nat) (s : OrchState) : OrchState :=
  let ids := getContainers s appID
  let s1 := ids.foldl (fun st i => removeContainer i (stopContainer i st)) s
  { s1 with appContainers := eraseEntry s1.appContainers appID }

/-- The loop body of orchestrator.go `startContainers`: `i` is the next
replica index, `n` the number of replicas still to create, `acc` the ids
created so far.  On a create failure all of `acc` is removed; on a start
failure the fresh container and all of `acc` are removed. -/
def startContainersLoop (beh : Behavior) (app : App) :
    Nat → Nat → List String → Deployment → OrchState →
    OrchState × Deployment × Option (List String)
  | _, 0, acc, d, s => (s, d, some acc)
  | i, Nat.succ m, acc, d, s =>
    let cname := app.GetContainerName i
    match createContainer beh cname s with
    | (s1, none) => (removeAll acc s1, d, none)
    | (s1, some cid) =>
      match startContainer beh cid s1 with
      | (s2, false) => (removeAll acc (removeContainer cid s2), d, none)
      | (s2, true) =>
        startContainersLoop beh app (i + 1) m (acc ++ [cid])
          (d.AddContainerID (cid.take 12)) s2

/-- orchestrator.go `startContainers`: start `app.TargetReplicas` replicas. -/
def startContainers (beh : Behavior) (app : App) (d : Deployment) (s : OrchState) :
    OrchState × Deployment × Option (List String) :=
  startContainersLoop beh app 0 app.targetReplicas.toNat [] d s

/-- orchestrator.go `rollback`: swap to the previous image via `App.Rollback`
and re-run the replica loop; the rollback's own deployment record is a local
that is never registered.  The `Bool` result is `true` when an error is
returned. -/
def rollback (beh : Behavior) (now : Nat) (s : OrchState) (app : App) :
    OrchState × App × Bool :=
  match app.Rollback now with
  | (_, false) => (s, app, true)
  | (a1, true) =>
    let d2 := NewDeployment s.freshID a1.id a1.currentImageID a1.targetReplicas now
    let d2 := { d2 with rollbackReason := "automatic rollback after failed deployment" }
    let s1 := { s with freshID := s.freshID + 1 }
    let d2 := d2.Start now
    match startContainers beh a1 d2 s1 with
    | (s2, _, none) => (s2, a1, true)
    | (s2, _, some ids) =>
      let s3 := { s2 with appContainers := setEntry s2.appContainers a1.id ids }
      (s3, ({ a1 with replicas := (ids.length : Int) }).MarkRunning now, false)

/-- orchestrator.go `Deploy`.  The deployment record is registered through a
pointer in Go, so the registry observes its final value; the model writes
that final value once.  The `Bool` result is `true` when an error is
returned. -/
def Deploy (beh : Behavior) (now : Nat) (s : OrchState) (app : App) :
    OrchState × App × Option Deployment × Bool :=
  if app.CanDeploy = false then (s, app, none, true)
  else if app.currentImageID = "" then (s, app, none, true)
  else
    let d0 := NewDeployment s.freshID app.id app.currentImageID app.targetReplicas now
    let d0 := { d0 with previousImageID := app.previousImageID }
    let sA := { s with freshID := s.freshID + 1 }
    let app1 := app.MarkDeploying now
    let d1 := d0.Start now
    let sB := stopAppContainers app.id sA
    match startContainers beh app1 d1 sB with
    | (s1, d2, none) =>
      let d3 := d2.Fail now "failed to create or start container"
      let app2 := app1.MarkFailed now
      if app2.previousImageID = "" then
        ({ s1 with deployments := setEntry s1.deployments d3.id d3 }, app2, some d3, true)
      else
        match rollback beh now s1 app2 with
        | (s2, app3, _) =>
          ({ s2 with deployments := setEntry s2.deployments d3.id d3 }, app3, some d3, true)
    | (s1, d2, some ids) =>
      let s2 := { s1 with appContainers := setEntry s1.appContainers app.id ids }
      let d3 := d2.Succeed now ids
      let app2 := ({ app1 with replicas := (ids.length : Int) }).MarkRunning now
      ({ s2 with deployments := setEntry s2.deployments d3.id d3 }, app2, some d3, false)

/-- The loop body of orchestrator.go `scaleUp`: each iteration lists the
runtime containers, force-removes any whose name equals the new replica's
(unprefixed) name or "/"+name, then creates and starts the replica and
appends it to the tracking entry.  A create failure returns leaving earlier
new replicas in place; a start failure additionally removes the fresh
container. -/
def scaleUpLoop (beh : Behavior) (app : App) (startReplica : Nat) :
    Nat → Nat → OrchState → OrchState × Option String
  | _, 0, s => (s, none)
  | j, Nat.succ m, s =>
    let replica := startReplica + j
    let cname := app.GetContainerName replica
    let s0 := { s with trace := s.trace ++ [Op.list] }
    let victims := s0.runtime.filter (fun c => c.cname == cname || c.cname == "/" ++ cname)
    let s1 := removeAll (victims.map (fun c => c.cid)) s0
    match createContainer beh cname s1 with
    | (s2, none) => (s2, some ("failed to create replica " ++ toString replica))
    | (s2, some cid) =>
      match startContainer beh cid s2 with
      | (s3, false) =>
        (removeContainer cid s3, some ("failed to start replica " ++ toString replica))
      | (s3, true) =>
        let s4 := { s3 with
          appContainers := setEntry s3.appContainers app.id (getContainers s3 app.id ++ [cid]) }
        scaleUpLoop beh app startReplica (j + 1) m s4

/-- orchestrator.go `scaleUp`: add `count` replicas; on success `app.Replicas`
is set to the new total. -/
def scaleUp (beh : Behavior) (app : App) (currentContainers : List String)
    (count : Nat) (s : OrchState) : OrchState × App × Option String :=
  match scaleUpLoop beh app currentContainers.length 0 count s with
  | (s1, some e) => (s1, app, some e)
  | (s1, none) =>
    (s1, { app with replicas := ((currentContainers.length + count : Nat) : Int) }, none)

/-- orchestrator.go `scaleDown`: stop and remove the trailing `count`
containers and truncate the tracking entry; never returns an error. -/
def scaleDown (app : App) (currentContainers : List String) (count : Nat)
    (s : OrchState) : OrchState × App × Option String :=
  let keep := currentContainers.length - count
  let toRemove := currentContainers.drop keep
  let s1 := toRemove.foldl (fun st i => removeContainer i (stopContainer i st)) s
  let s2 := { s1 with
    appContainers := setEntry s1.appContainers app.id (currentContainers.take keep) }
  (s2, { app with replicas := ((keep : Nat) : Int) }, none)

/-- orchestrator.go `Scale`: validate the target, no-op when it equals the
tracked count, otherwise scale up or down and finish by setting `Replicas`
and the status. -/
def Scale (beh : Behavior) (now : Nat) (s : OrchState) (app : App)
    (targetReplicas : Int) : OrchState × App × Option String :=
  if targetReplicas < 0 then
    (s, app, some ("invalid replica count: " ++ toString targetReplicas))
  else if 10 < targetReplicas then
    (s, app, some "maximum replica count is 10")
  else if app.currentImageID = "" ∧ 0 < targetReplicas then
    (s, app, some "cannot scale app: no image available, please build or deploy first")
  else
    let current := getContainers s app.id
    let currentCount := current.length
    if targetReplicas = (currentCount : Int) then (s, app, none)
    else
      let app1 := { app with targetReplicas := targetReplicas }
      match
        (if (currentCount : Int) < targetReplicas then
          scaleUp beh app1 current (targetReplicas - currentCount).toNat s
        else
          scaleDown app1 current ((currentCount : Int) - targetReplicas).toNat s) with
      | (s1, app2, some e) => (s1, app2, some e)
      | (s1, app2, none) =>
        let app3 := { app2 with replicas := targetReplicas }
        let app4 := if 0 < targetReplicas then app3.MarkRunning now
                    else app3.MarkStopped now
        (s1, app4, none)

/-- One container's health pass in orchestrator.go `checkContainerHealth`:
query health (an errored query is logged and skipped); an unhealthy
container gets a runtime-level restart.  Only the trace changes. -/
def checkOne (health : String → Option Bool) (cid : String) (s : OrchState) :
    OrchState :=
  let s1 := { s with trace := s.trace ++ [Op.health cid] }
  match health cid with
  | none => s1
  | some true => s1
  | some false => { s1 with trace := s1.trace ++ [Op.restart cid] }

/-- orchestrator.go `checkContainerHealth`: iterate a snapshot of the
tracking map and run the health pass over every tracked container. -/
def checkContainerHealth (health : String → Option Bool) (s : OrchState) :
    OrchState :=
  s.appContainers.foldl
    (fun st entry => entry.2.foldl (fun st2 cid => checkOne health cid st2) st) s

/-- A backend replica endpoint (router `Replica`). -/
structure Replica where
  containerID : String
  ipAddress : String
  port : Int
  weight : Int
deriving DecidableEq, Repr

/-- A routing rule for one app (router `Route`). -/
structure Route where
  appID : Nat
  appSlug : String
  subdomain : String
  serviceName : String
  port : Int
  replicas : List Replica
  enableHTTPS : Bool
  headers : List (String × String)
  middleware : List String
deriving DecidableEq, Repr

/-- TraefikRouter state: the route map, the configured base domain and TLS
flag, the bytes last written to dynamic.yml, and whether `os.WriteFile`
succeeds (the only failure source of the mutating calls). -/
structure RouterState where
  domain : String
  enableHTTPS : Bool
  routes : List (Nat × Route)
  file : Option String
  writeOk : Bool
deriving DecidableEq, Repr

/-- The "routers:" section built by `convertToYAML`'s manual string builder. -/
def routersSection (domain : String) (routes : List Route) : String :=
  routes.foldl
    (fun acc route =>
      acc ++ "    " ++ route.appSlug ++ "-router:\n"
          ++ "      rule: \"Host(`" ++ route.subdomain ++ "." ++ domain ++ "`)\"\n"
          ++ "      service: " ++ route.serviceName ++ "\n"
          ++ "      entryPoints:\n"
          ++ "        - web\n"
          ++ (if route.enableHTTPS then
                "      tls:\n        certResolver: letsencrypt\n"
              else ""))
    ""

/-- The "services:" section built by `convertToYAML`. -/
def servicesSection (routes : List Route) : String :=
  routes.foldl
    (fun acc route =>
      acc ++ "    " ++ route.serviceName ++ ":\n"
          ++ "      loadBalancer:\n"
          ++ "        servers:\n"
          ++ route.replicas.foldl
               (fun a r =>
                 a ++ "          - url: \"http://" ++ r.ipAddress ++ ":"
                   ++ toString r.port ++ "\"\n")
               ""
          ++ "        healthCheck:\n"
          ++ "          path: /health\n"
          ++ "          interval: 10s\n"
          ++ "          timeout: 3s\n")
    ""

/-- The "middlewares:" section built by `convertToYAML`. -/
def middlewaresSection (routes : List Route) : String :=
  routes.foldl
    (fun acc route =>
      acc ++ "    " ++ route.appSlug ++ "-headers:\n"
          ++ "      headers:\n"
          ++ "        customRequestHeaders:\n"
          ++ "          X-NanoPaaS-App: \"" ++ route.appSlug ++ "\"\n"
          ++ "        customResponseHeaders:\n"
          ++ "          X-Powered-By: \"NanoPaaS\"\n")
    ""

/-- router `convertToYAML` (the manual string builder actually used). -/
def convertToYAML (domain : String) (routes : List Route) : String :=
  "http:\n  routers:\n" ++ routersSection domain routes
    ++ "\n  services:\n" ++ servicesSection routes
    ++ "\n  middlewares:\n" ++ middlewaresSection routes

/-- router `generateConfig`: render the whole route map and rewrite
dynamic.yml; `some msg` is the wrapped write error.  The range loop over the
route map is rendered here in insertion order — one fixed choice of Go's
unspecified map iteration; use `generateConfigOrd` below for statements that
are sensitive to the iteration order. -/
def generateConfig (rs : RouterState) : RouterState × Option String :=
  let yaml := convertToYAML rs.domain (rs.routes.map (fun p => p.2))
  if rs.writeOk then ({ rs with file := some yaml }, none)
  else (rs, some "failed to write config")

/-- router `AddRoute`: build the route from the app, write it into the map,
then regenerate the config file. -/
def AddRoute (rs : RouterState) (app : App) (replicas : List Replica) :
    RouterState × Option String :=
  let route : Route :=
    { appID := app.id, appSlug := app.slug, subdomain := app.subdomain,
      serviceName := app.slug, port := app.exposedPort, replicas := replicas,
      enableHTTPS := rs.enableHTTPS,
      headers := [("X-NanoPaaS-App", app.slug)], middleware := [] }
  generateConfig { rs with routes := setEntry rs.routes app.id route }

/-- router `RemoveRoute`: delete the map entry (a no-op for an unknown id)
and regenerate the config file. -/
def RemoveRoute (rs : RouterState) (appID : Nat) : RouterState × Option String :=
  generateConfig { rs with routes := eraseEntry rs.routes appID }

/-- router `UpdateReplicas`: fails with "route not found" for an unknown id;
otherwise replaces the route's replica list and regenerates the config. -/
def UpdateReplicas (rs : RouterState) (appID : Nat) (replicas : List Replica) :
    RouterState × Option String :=
  match lookupEntry rs.routes appID with
  | none => (rs, some ("route not found for app " ++ toString appID))
  | some route =>
    generateConfig
      { rs with routes := setEntry rs.routes appID { route with replicas := replicas } }

/-- The sequence of routes visited when the Go range loop over the route map
yields the keys in the order `ks`.  Go map iteration order is unspecified and
randomized per loop, so `ks` is an adversarial parameter: any permutation of
the stored keys is a possible iteration. -/
def routesInOrder (ks : List Nat) (routes : List (Nat × Route)) : List Route :=
  ks.filterMap (fun k => lookupEntry routes k)

/-- router `generateConfig` with the map-iteration order `ks` of its range
loop made explicit. -/
def generateConfigOrd (ks : List Nat) (rs : RouterState) : RouterState × Option String :=
  let yaml := convertToYAML rs.domain (routesInOrder ks rs.routes)
  if rs.writeOk then ({ rs with file := some yaml }, none)
  else (rs, some "failed to write config")

/-- router `AddRoute` with the iteration order of its regeneration explicit. -/
def AddRouteOrd (ks : List Nat) (rs : RouterState) (app : App)
    (replicas : List Replica) : RouterState × Option String :=
  let route : Route :=
    { appID := app.id, appSlug := app.slug, subdomain := app.subdomain,
      serviceName := app.slug, port := app.exposedPort, replicas := replicas,
      enableHTTPS := rs.enableHTTPS,
      headers := [("X-NanoPaaS-App", app.slug)], middleware := [] }
  generateConfigOrd ks { rs with routes := setEntry rs.routes app.id route }

/-- router `UpdateReplicas` with the iteration order of its regeneration
explicit. -/
def UpdateReplicasOrd (ks : List Nat) (rs : RouterState) (appID : Nat)
    (replicas : List Replica) : RouterState × Option String :=
  match lookupEntry rs.routes appID with
  | none => (rs, some ("route not found for app " ++ toString appID))
  | some route =>
    generateConfigOrd ks
      { rs with routes := setEntry rs.routes appID { route with replicas := replicas } }

/-! ### Auxiliary definitions and concrete fixtures used by the theorems -/

/-- The stop-then-remove loop shared by `stopAppContainers` and `scaleDown`. -/
def stopRemoveFold (ids : List String) (s : OrchState) : OrchState :=
  ids.foldl (fun st i => removeContainer i (stopContainer i st)) s

/-- A behavior oracle under which every runtime call succeeds. -/
def behAllOk : Behavior := ⟨fun _ => true, fun _ => true⟩

/-- The empty orchestrator state (a freshly constructed orchestrator). -/
def orch0 : OrchState := ⟨[], [], [], 0, 0, 0, []⟩

/-- A generic running application used to instantiate witnesses. -/
def mkTestApp (target : Int) (cur prev : String) : App :=
  { id := 1, name := "api", slug := "api", description := "", status := .running,
    envVars := [], currentImageID := cur, previousImageID := prev,
    replicas := 0, targetReplicas := target, memoryLimit := 536870912,
    cpuQuota := 50000, subdomain := "api", exposedPort := 8080,
    createdAt := 0, updatedAt := 0, startedAt := none, stoppedAt := none,
    ownerID := 7 }

/-- Concrete application refuting claim C1 as stated. -/
def appC1 : App := mkTestApp 1 "nanopaas/api:bbbbbbbb" "nanopaas/api:aaaaaaaa"

/-- Concrete application for the C8 witness. -/
def appC8 : App := mkTestApp 2 "img" ""

/-- Concrete application for the C4 witness. -/
def appC4 : App := mkTestApp 1 "nanopaas/api:aaaaaaaa" ""

/-- Runtime calls the health monitor is allowed to make: health queries and
container restarts. -/
def MonitorOp : Op → Prop
  | .health _ => True
  | .restart _ => True
  | _ => False

/-- The health pass leaves everything but the trace unchanged, appending
only health queries and restarts. -/
def MonitorExt (s t : OrchState) : Prop :=
  t.appContainers = s.appContainers ∧ t.deployments = s.deployments ∧
  t.runtime = s.runtime ∧ t.freshID = s.freshID ∧ t.creates = s.creates ∧
  t.starts = s.starts ∧ ∃ u, t.trace = s.trace ++ u ∧ ∀ op ∈ u, MonitorOp op

/-- Concrete router state for witnesses. -/
def router0 : RouterState :=
  { domain := "localhost", enableHTTPS := false, routes := [], file := none,
    writeOk := true }

/-- Concrete application for the C6 witness. -/
def appC6 : App := mkTestApp 2 "nanopaas/api:aaaaaaaa" ""

/-- A pre-existing route for a second application (id 2, slug "web"), used
to exhibit the iteration-order dependence of the generated file. -/
def routeC6web : Route :=
  { appID := 2, appSlug := "web", subdomain := "web", serviceName := "web",
    port := 3000, replicas := [], enableHTTPS := false,
    headers := [("X-NanoPaaS-App", "web")], middleware := [] }

/-- Router state already holding the route of app 2. -/
def routerC6 : RouterState :=
  { domain := "localhost", enableHTTPS := false, routes := [(2, routeC6web)],
    file := none, writeOk := true }

/-- Concrete endpoint list for the C6 counterexample and witness. -/
def repC6 : List Replica := [⟨"cid1", "127.0.0.1", 8080, 1⟩]

/-- Behavior whose every CreateContainer call fails. -/
def behC3 : Behavior := ⟨fun _ => false, fun _ => true⟩

/-- Concrete application for the C3 witness. -/
def appC3 : App := mkTestApp 1 "nanopaas/api:bbbbbbbb" ""

/-- Behavior whose second CreateContainer call (index 1) fails and all other
runtime calls succeed. -/
def behC2 : Behavior := ⟨fun k => !(k == 1), fun _ => true⟩

/-- Concrete application for the C2 witness: two target replicas, a new
image being deployed over a previous one. -/
def appC2 : App := mkTestApp 2 "nanopaas/api:bbbbbbbb" "nanopaas/api:aaaaaaaa"

/-- Concrete application for the C5 witness. -/
def appC5 : App := mkTestApp 1 "nanopaas/api:aaaaaaaa" ""

/-! ### Association-list lemmas -/

@[simp]
theorem lookupEntry_setEntry_self {α : Type} (m : List (Nat × α)) (k : Nat) (v : α) :
    lookupEntry (setEntry m k v) k = some v := by
  induction m with
  | nil => simp [setEntry, lookupEntry]
  | cons p rest ih =>
    obtain ⟨q, w⟩ := p
    by_cases hk : q = k
    · simp [setEntry, lookupEntry, hk]
    · simp [setEntry, lookupEntry, hk, ih]

@[simp]
theorem lookupEntry_eraseEntry_self {α : Type} (m : List (Nat × α)) (k : Nat) :
    lookupEntry (eraseEntry m k) k = none := by
  induction m with
  | nil => rfl
  | cons p rest ih =>
    obtain ⟨q, w⟩ := p
    by_cases hk : q = k
    · simp [eraseEntry, hk, ih]
    · simp [eraseEntry, lookupEntry, hk, ih]

theorem setEntry_setEntry {α : Type} (m : List (Nat × α)) (k : Nat) (v w : α) :
    setEntry (setEntry m k v) k w = setEntry m k w := by
  induction m with
  | nil => simp [setEntry]
  | cons p rest ih =>
    obtain ⟨q, u⟩ := p
    by_cases hk : q = k
    · simp [setEntry, hk]
    · simp [setEntry, hk, ih]

theorem eraseEntry_of_lookup_none {α : Type} (m : List (Nat × α)) (k : Nat)
    (h : lookupEntry m k = none) : eraseEntry m k = m := by
  induction m with
  | nil => rfl
  | cons p rest ih =>
    obtain ⟨q, w⟩ := p
    by_cases hk : q = k
    · simp [lookupEntry, hk] at h
    · simp [lookupEntry, hk] at h
      simp [eraseEntry, hk, ih h]

/-! ### Frame lemmas for the modelled runtime calls -/

@[simp]
theorem removeContainer_appContainers (cid : String) (s : OrchState) :
    (removeContainer cid s).appContainers = s.appContainers := rfl

@[simp]
theorem removeContainer_deployments (cid : String) (s : OrchState) :
    (removeContainer cid s).deployments = s.deployments := rfl

@[simp]
theorem removeContainer_creates (cid : String) (s : OrchState) :
    (removeContainer cid s).creates = s.creates := rfl

@[simp]
theorem removeContainer_starts (cid : String) (s : OrchState) :
    (removeContainer cid s).starts = s.starts := rfl

@[simp]
theorem removeContainer_freshID (cid : String) (s : OrchState) :
    (removeContainer cid s).freshID = s.freshID := rfl

theorem mem_removeContainer_runtime {x : RtContainer} (cid : String) (s : OrchState)
    (h : x ∈ (removeContainer cid s).runtime) : x ∈ s.runtime :=
  (List.mem_filter.mp h).1

@[simp]
theorem stopContainer_appContainers (cid : String) (s : OrchState) :
    (stopContainer cid s).appContainers = s.appContainers := rfl

@[simp]
theorem stopContainer_deployments (cid : String) (s : OrchState) :
    (stopContainer cid s).deployments = s.deployments := rfl

@[simp]
theorem stopContainer_runtime (cid : String) (s : OrchState) :
    (stopContainer cid s).runtime = s.runtime := rfl

@[simp]
theorem stopContainer_creates (cid : String) (s : OrchState) :
    (stopContainer cid s).creates = s.creates := rfl

@[simp]
theorem stopContainer_starts (cid : String) (s : OrchState) :
    (stopContainer cid s).starts = s.starts := rfl

@[simp]
theorem stopContainer_freshID (cid : String) (s : OrchState) :
    (stopContainer cid s).freshID = s.freshID := rfl

@[simp]
theorem removeAll_appContainers (ids : List String) (s : OrchState) :
    (removeAll ids s).appContainers = s.appContainers := by
  induction ids generalizing s with
  | nil => rfl
  | cons i rest ih => simp [removeAll, List.foldl_cons] at ih ⊢; rw [ih]; rfl

@[simp]
theorem removeAll_deployments (ids : List String) (s : OrchState) :
    (removeAll ids s).deployments = s.deployments := by
  induction ids generalizing s with
  | nil => rfl
  | cons i rest ih => simp [removeAll, List.foldl_cons] at ih ⊢; rw [ih]; rfl

@[simp]
theorem removeAll_creates (ids : List String) (s : OrchState) :
    (removeAll ids s).creates = s.creates := by
  induction ids generalizing s with
  | nil => rfl
  | cons i rest ih => simp [removeAll, List.foldl_cons] at ih ⊢; rw [ih]; rfl

@[simp]
theorem removeAll_starts (ids : List String) (s : OrchState) :
    (removeAll ids s).starts = s.starts := by
  induction ids generalizing s with
  | nil => rfl
  | cons i rest ih => simp [removeAll, List.foldl_cons] at ih ⊢; rw [ih]; rfl

@[simp]
theorem removeAll_freshID (ids : List String) (s : OrchState) :
    (removeAll ids s).freshID = s.freshID := by
  induction ids generalizing s with
  | nil => rfl
  | cons i rest ih => simp [removeAll, List.foldl_cons] at ih ⊢; rw [ih]; rfl

theorem mem_removeAll_runtime {x : RtContainer} (ids : List String) (s : OrchState)
    (h : x ∈ (removeAll ids s).runtime) : x ∈ s.runtime := by
  induction ids generalizing s with
  | nil => exact h
  | cons i rest ih =>
    simp [removeAll, List.foldl_cons] at h
    exact mem_removeContainer_runtime i s (ih _ h)

@[simp]
theorem stopRemoveFold_appContainers (ids : List String) (s : OrchState) :
    (stopRemoveFold ids s).appContainers = s.appContainers := by
  induction ids generalizing s with
  | nil => rfl
  | cons i rest ih => simp [stopRemoveFold, List.foldl_cons] at ih ⊢; rw [ih]; rfl

@[simp]
theorem stopRemoveFold_deployments (ids : List String) (s : OrchState) :
    (stopRemoveFold ids s).deployments = s.deployments := by
  induction ids generalizing s with
  | nil => rfl
  | cons i rest ih => simp [stopRemoveFold, List.foldl_cons] at ih ⊢; rw [ih]; rfl

@[simp]
theorem stopRemoveFold_creates (ids : List String) (s : OrchState) :
    (stopRemoveFold ids s).creates = s.creates := by
  induction ids generalizing s with
  | nil => rfl
  | cons i rest ih => simp [stopRemoveFold, List.foldl_cons] at ih ⊢; rw [ih]; rfl

@[simp]
theorem stopRemoveFold_starts (ids : List String) (s : OrchState) :
    (stopRemoveFold ids s).starts = s.starts := by
  induction ids generalizing s with
  | nil => rfl
  | cons i rest ih => simp [stopRemoveFold, List.foldl_cons] at ih ⊢; rw [ih]; rfl

@[simp]
theorem stopRemoveFold_freshID (ids : List String) (s : OrchState) :
    (stopRemoveFold ids s).freshID = s.freshID := by
  induction ids generalizing s with
  | nil => rfl
  | cons i rest ih => simp [stopRemoveFold, List.foldl_cons] at ih ⊢; rw [ih]; rfl

theorem mem_stopRemoveFold_runtime {x : RtContainer} (ids : List String) (s : OrchState)
    (h : x ∈ (stopRemoveFold ids s).runtime) : x ∈ s.runtime := by
  induction ids generalizing s with
  | nil => exact h
  | cons i rest ih =>
    exact mem_removeContainer_runtime i (stopContainer i s) (ih _ h)

theorem stopAppContainers_eq (appID : Nat) (s : OrchState) :
    stopAppContainers appID s =
      { stopRemoveFold (getContainers s appID) s with
        appContainers := eraseEntry s.appContainers appID } := by
  change ({ stopRemoveFold (getContainers s appID) s with
            appContainers :=
              eraseEntry (stopRemoveFold (getContainers s appID) s).appContainers appID }) = _
  rw [stopRemoveFold_appContainers]

@[simp]
theorem stopAppContainers_appContainers (appID : Nat) (s : OrchState) :
    (stopAppContainers appID s).appContainers = eraseEntry s.appContainers appID := by
  rw [stopAppContainers_eq]

@[simp]
theorem stopAppContainers_creates (appID : Nat) (s : OrchState) :
    (stopAppContainers appID s).creates = s.creates := by
  rw [stopAppContainers_eq]; simp

@[simp]
theorem stopAppContainers_starts (appID : Nat) (s : OrchState) :
    (stopAppContainers appID s).starts = s.starts := by
  rw [stopAppContainers_eq]; simp

@[simp]
theorem stopAppContainers_deployments (appID : Nat) (s : OrchState) :
    (stopAppContainers appID s).deployments = s.deployments := by
  rw [stopAppContainers_eq]; simp

theorem mem_stopAppContainers_runtime {x : RtContainer} (appID : Nat) (s : OrchState)
    (h : x ∈ (stopAppContainers appID s).runtime) : x ∈ s.runtime := by
  rw [stopAppContainers_eq] at h
  exact mem_stopRemoveFold_runtime _ _ h

/-! ### Shared concrete fixtures for witnesses -/

/-! ### Claim C1 -/

/-- Claim C1, counterexample: after a (successful) `App.Rollback`,
`previous_image_tag` does NOT equal its value before the rollback — the
code swaps the two image tags. -/
theorem C1_rollback_preserves_previous_counterexample :
    ((appC1.Rollback 1).1).previousImageID ≠ appC1.previousImageID := by
  decide

/-- Claim C1 (amended): `UpdateImage` moves the current tag into
`previous_image_tag`; `Rollback` with an empty previous tag fails and
changes nothing; `Rollback` with a non-empty previous tag succeeds and
swaps the two tags, so `previous_image_tag` becomes the pre-rollback
current tag (it is not preserved). -/
theorem C1_image_tag_updates (a : App) (img : String) (now : Nat) :
    (a.UpdateImage img now).previousImageID = a.currentImageID ∧
    (a.previousImageID = "" → a.Rollback now = (a, false)) ∧
    (a.previousImageID ≠ "" →
      (a.Rollback now).1.previousImageID = a.currentImageID ∧
      (a.Rollback now).1.currentImageID = a.previousImageID ∧
      (a.Rollback now).2 = true) := by
  refine ⟨rfl, ?_, ?_⟩ <;> intro h <;> simp [App.Rollback, h]

/-- Witness for `C1_image_tag_updates` at a concrete application. -/
theorem C1_image_tag_updates_witness :
    (appC1.Rollback 2).1.previousImageID = appC1.currentImageID ∧
    (appC1.Rollback 2).1.currentImageID = appC1.previousImageID ∧
    (appC1.Rollback 2).2 = true :=
  (C1_image_tag_updates appC1 "x" 2).2.2 (by decide)

/-! ### Claim C7 -/

/-- Claim C7: the generated image tag is exactly
"nanopaas/" ++ slug ++ ":" ++ (first 8 characters of the build id), and for
a fixed slug, equal image tags force equal 8-character id prefixes. -/
theorem C7_image_tag_deterministic (b1 b2 : Build) (slug : String) :
    b1.GenerateImageTag slug = "nanopaas/" ++ slug ++ ":" ++ b1.id.take 8 ∧
    (b1.GenerateImageTag slug = b2.GenerateImageTag slug →
      b1.id.take 8 = b2.id.take 8) := by
  refine ⟨rfl, fun h => ?_⟩
  unfold Build.GenerateImageTag at h
  have hd := congrArg String.data h
  simp only [String.data_append] at hd
  exact String.ext (List.append_cancel_left hd)

/-- Witness for `C7_image_tag_deterministic` at concrete builds. -/
theorem C7_image_tag_deterministic_witness :
    ("deadbeef-0000-4000-8000-000000000000" : String).take 8 =
      ("deadbeef-1111-4111-8111-111111111111" : String).take 8 :=
  (C7_image_tag_deterministic
    { id := "deadbeef-0000-4000-8000-000000000000", appID := 1, status := .queued,
      dockerfilePath := "Dockerfile", imageTag := "", imageID := "", errorMessage := "" }
    { id := "deadbeef-1111-4111-8111-111111111111", appID := 1, status := .queued,
      dockerfilePath := "Dockerfile", imageTag := "", imageID := "", errorMessage := "" }
    "api").2 (by decide)

/-! ### Claim C8 -/

/-- Claim C8: for replica indices 0 ≤ i ≤ 9, the full container name created
by the adapter (default prefix "nanopaas-") is "nanopaas-" ++ slug for
replica 0 and "nanopaas-" ++ slug ++ "-" ++ digit otherwise. -/
theorem C8_container_name (a : App) (i : Nat) (h : i ≤ 9) :
    Client.CreateContainerName clientNamePre (a.GetContainerName i) =
      if i = 0 then "nanopaas-" ++ a.slug
      else "nanopaas-" ++ a.slug ++ "-" ++ toString i := by
  have digit : ∀ j : Nat, 1 ≤ j → j ≤ 9 →
      (Char.ofNat (48 + j)).toString = toString j := by
    intro j h1 h9
    interval_cases j <;> decide
  unfold Client.CreateContainerName clientNamePre App.GetContainerName
  rcases Nat.eq_zero_or_pos i with h0 | h1
  · subst h0; simp
  · have hne : i ≠ 0 := Nat.pos_iff_ne_zero.mp h1
    rw [if_neg hne, if_neg hne, digit i h1 h]
    simp [String.append_assoc]

/-- Witness for `C8_container_name` at a concrete application and index. -/
theorem C8_container_name_witness :
    Client.CreateContainerName clientNamePre (appC8.GetContainerName 3) =
      "nanopaas-" ++ appC8.slug ++ "-" ++ toString 3 :=
  C8_container_name appC8 3 (by decide)

/-! ### Claim C4 -/

/-- Claim C4: `Scale` with a target above 10, below 0, or positive while the
app has no current image, fails before doing anything: the returned state
and application record are exactly the inputs (so the tracking map, all
timestamps and the runtime-call trace are unchanged) and an error message is
returned. -/
theorem C4_scale_invalid_argument (beh : Behavior) (now : Nat) (s : OrchState)
    (app : App) (n : Int)
    (h : n < 0 ∨ 10 < n ∨ (app.currentImageID = "" ∧ 0 < n)) :
    ∃ msg, Scale beh now s app n = (s, app, some msg) := by
  unfold Scale
  rcases h with h | h | h
  · exact ⟨_, by rw [if_pos h]⟩
  · have hn : ¬n < 0 := by omega
    exact ⟨_, by rw [if_neg hn, if_pos h]⟩
  · have hn : ¬n < 0 := by omega
    by_cases h10 : 10 < n
    · exact ⟨_, by rw [if_neg hn, if_pos h10]⟩
    · exact ⟨_, by rw [if_neg hn, if_neg h10, if_pos h]⟩

/-- Witness for `C4_scale_invalid_argument`: scaling to 11 replicas. -/
theorem C4_scale_invalid_argument_witness :
    ∃ msg, Scale behAllOk 5 orch0 appC4 11 = (orch0, appC4, some msg) :=
  C4_scale_invalid_argument behAllOk 5 orch0 appC4 11 (Or.inr (Or.inl (by decide)))

/-! ### Claim C9 -/

theorem monitorExt_refl (s : OrchState) : MonitorExt s s :=
  ⟨rfl, rfl, rfl, rfl, rfl, rfl, [], by simp, by simp⟩

theorem monitorExt_trans {s t v : OrchState} (h1 : MonitorExt s t)
    (h2 : MonitorExt t v) : MonitorExt s v := by
  obtain ⟨a1, b1, c1, d1, e1, f1, u1, hu1, hm1⟩ := h1
  obtain ⟨a2, b2, c2, d2, e2, f2, u2, hu2, hm2⟩ := h2
  refine ⟨a2.trans a1, b2.trans b1, c2.trans c1, d2.trans d1, e2.trans e1,
    f2.trans f1, u1 ++ u2, ?_, ?_⟩
  · rw [hu2, hu1, List.append_assoc]
  · intro op hop
    rcases List.mem_append.mp hop with h | h
    · exact hm1 op h
    · exact hm2 op h

theorem checkOne_monitorExt (health : String → Option Bool) (cid : String)
    (s : OrchState) : MonitorExt s (checkOne health cid s) := by
  unfold checkOne
  rcases health cid with _ | b
  · exact ⟨rfl, rfl, rfl, rfl, rfl, rfl, [Op.health cid], rfl, by simp [MonitorOp]⟩
  · cases b
    · exact ⟨rfl, rfl, rfl, rfl, rfl, rfl, [Op.health cid, Op.restart cid],
        by simp, by simp [MonitorOp]⟩
    · exact ⟨rfl, rfl, rfl, rfl, rfl, rfl, [Op.health cid], rfl, by simp [MonitorOp]⟩

theorem foldl_checkOne_monitorExt (health : String → Option Bool)
    (cids : List String) (s : OrchState) :
    MonitorExt s (cids.foldl (fun st cid => checkOne health cid st) s) := by
  induction cids generalizing s with
  | nil => exact monitorExt_refl s
  | cons c rest ih =>
    exact monitorExt_trans (checkOne_monitorExt health c s) (ih _)

theorem foldl_entries_monitorExt (health : String → Option Bool)
    (entries : List (Nat × List String)) (s : OrchState) :
    MonitorExt s (entries.foldl
      (fun st entry => entry.2.foldl (fun st2 cid => checkOne health cid st2) st) s) := by
  induction entries generalizing s with
  | nil => exact monitorExt_refl s
  | cons e rest ih =>
    exact monitorExt_trans (foldl_checkOne_monitorExt health e.2 s) (ih _)

/-- Claim C9: one health-monitor pass never mutates orchestrator state —
the tracking map, the deployment registry, the set of runtime containers
and all counters are unchanged, and the only runtime calls it issues are
health queries and restarts. -/
theorem C9_health_check_frame (health : String → Option Bool) (s : OrchState) :
    (checkContainerHealth health s).appContainers = s.appContainers ∧
    (checkContainerHealth health s).deployments = s.deployments ∧
    (checkContainerHealth health s).runtime = s.runtime ∧
    ∃ u, (checkContainerHealth health s).trace = s.trace ++ u ∧
      ∀ op ∈ u, MonitorOp op := by
  obtain ⟨a, b, c, _, _, _, u, hu, hm⟩ :=
    foldl_entries_monitorExt health s.appContainers s
  exact ⟨a, b, c, u, hu, hm⟩

/-! ### Claim C6 -/

/-- Claim C6, counterexample: with a second route already present, a run in
which `AddRoute`'s regeneration iterates the route map in the order [2, 1]
and `UpdateReplicas`'s regeneration iterates it in the order [1, 2] — both
permutations of the stored keys, hence legitimate Go map iterations — writes
dynamic-config files with different bytes, refuting the claim as stated. -/
theorem C6_add_then_update_bytes_counterexample :
    (UpdateReplicasOrd [1, 2] (AddRouteOrd [2, 1] routerC6 appC6 repC6).1
        appC6.id repC6).1.file ≠
      (AddRouteOrd [2, 1] routerC6 appC6 repC6).1.file ∧
    (AddRouteOrd [2, 1] routerC6 appC6 repC6).2 = none ∧
    (UpdateReplicasOrd [1, 2] (AddRouteOrd [2, 1] routerC6 appC6 repC6).1
        appC6.id repC6).2 = none ∧
    ((AddRouteOrd [2, 1] routerC6 appC6 repC6).1.routes.map (fun p => p.1)).Perm [2, 1] ∧
    ((AddRouteOrd [2, 1] routerC6 appC6 repC6).1.routes.map (fun p => p.1)).Perm [1, 2] := by
  decide

/-- Claim C6 (amended): `AddRoute(app, E)` followed by
`UpdateReplicas(app.id, E)` succeeds and leaves the route map exactly as
`AddRoute` alone left it, so the second write renders the same routes; the
file bytes are identical whenever the two regenerations iterate the route
map in the same key order — which Go's randomized map iteration does not
guarantee when two or more routes are stored (with at most one route every
iteration order coincides, so the bytes are always identical there). -/
theorem C6_add_then_update_same_routes (rs : RouterState) (app : App)
    (E : List Replica) (ks ks2 : List Nat) (hw : rs.writeOk = true) :
    (AddRouteOrd ks rs app E).2 = none ∧
    (UpdateReplicasOrd ks2 (AddRouteOrd ks rs app E).1 app.id E).2 = none ∧
    (UpdateReplicasOrd ks2 (AddRouteOrd ks rs app E).1 app.id E).1.routes =
      (AddRouteOrd ks rs app E).1.routes ∧
    (ks2 = ks →
      (UpdateReplicasOrd ks2 (AddRouteOrd ks rs app E).1 app.id E).1.file =
        (AddRouteOrd ks rs app E).1.file) := by
  unfold AddRouteOrd UpdateReplicasOrd generateConfigOrd
  simp [hw, setEntry_setEntry]
  intro h
  subst h
  rfl

/-- Witness for `C6_add_then_update_same_routes` at concrete inputs, with
both regenerations iterating in the same order. -/
theorem C6_add_then_update_same_routes_witness :
    (AddRouteOrd [1] router0 appC6 repC6).2 = none ∧
    (UpdateReplicasOrd [1] (AddRouteOrd [1] router0 appC6 repC6).1
        appC6.id repC6).2 = none ∧
    (UpdateReplicasOrd [1] (AddRouteOrd [1] router0 appC6 repC6).1
        appC6.id repC6).1.routes = (AddRouteOrd [1] router0 appC6 repC6).1.routes ∧
    (UpdateReplicasOrd [1] (AddRouteOrd [1] router0 appC6 repC6).1
        appC6.id repC6).1.file = (AddRouteOrd [1] router0 appC6 repC6).1.file :=
  ⟨(C6_add_then_update_same_routes router0 appC6 repC6 [1] [1] (by decide)).1,
   (C6_add_then_update_same_routes router0 appC6 repC6 [1] [1] (by decide)).2.1,
   (C6_add_then_update_same_routes router0 appC6 repC6 [1] [1] (by decide)).2.2.1,
   (C6_add_then_update_same_routes router0 appC6 repC6 [1] [1] (by decide)).2.2.2 rfl⟩

/-! ### Claim C10 -/

/-- Claim C10: for an id with no route, `RemoveRoute` succeeds (only a file
write could fail) and still regenerates and rewrites the full dynamic
configuration file, while `UpdateReplicas` on the same unknown id returns a
route-not-found error and writes nothing. -/
theorem C10_remove_route_total_on_unknown_ids (rs : RouterState) (appID : Nat)
    (h : lookupEntry rs.routes appID = none) :
    (rs.writeOk = true →
      RemoveRoute rs appID =
        ({ rs with
           file := some (convertToYAML rs.domain (rs.routes.map (fun p => p.2))) },
         none)) ∧
    (∀ E, UpdateReplicas rs appID E =
      (rs, some ("route not found for app " ++ toString appID))) := by
  constructor
  · intro hw
    unfold RemoveRoute generateConfig
    rw [eraseEntry_of_lookup_none rs.routes appID h]
    simp [hw]
  · intro E
    unfold UpdateReplicas
    rw [h]

/-! ### Replica-loop lemmas -/

theorem mem_removeContainer_runtime_ne {x : RtContainer} {cid : String} {s : OrchState}
    (h : x ∈ (removeContainer cid s).runtime) : x ∈ s.runtime ∧ x.cid ≠ cid := by
  have hf := List.mem_filter.mp h
  exact ⟨hf.1, by simpa using hf.2⟩

theorem mem_removeAll_runtime_notin {x : RtContainer} (ids : List String) (s : OrchState)
    (h : x ∈ (removeAll ids s).runtime) : x ∈ s.runtime ∧ x.cid ∉ ids := by
  induction ids generalizing s with
  | nil => exact ⟨h, by simp⟩
  | cons i rest ih =>
    have h' : x ∈ (removeAll rest (removeContainer i s)).runtime := h
    obtain ⟨hmem, hni⟩ := ih _ h'
    obtain ⟨hmem', hne⟩ := mem_removeContainer_runtime_ne hmem
    exact ⟨hmem', by simp [hne, hni]⟩

/-- If the very first replica of the loop fails to create, or creates but
fails to start, the loop fails, leaves the tracking map and the registry
alone, and leaves no container beyond those that already existed (and none
whose id is in `acc`). -/
theorem startContainersLoop_fail_head (beh : Behavior) (app : App) (i m : Nat)
    (acc : List String) (d : Deployment) (s : OrchState)
    (hfail : beh.createOk s.creates = false ∨
      (beh.createOk s.creates = true ∧ beh.startOk s.starts = false)) :
    ∃ s1, startContainersLoop beh app i (m + 1) acc d s = (s1, d, none) ∧
      s1.appContainers = s.appContainers ∧ s1.deployments = s.deployments ∧
      ∀ x ∈ s1.runtime, x ∈ s.runtime ∧ x.cid ∉ acc := by
  rcases hfail with hc | ⟨hc, hs⟩
  · simp only [startContainersLoop, createContainer, hc, Bool.false_eq_true, if_false]
    refine ⟨_, rfl, by simp, by simp, ?_⟩
    intro x hx
    obtain ⟨hmem, hni⟩ := mem_removeAll_runtime_notin acc _ hx
    exact ⟨hmem, hni⟩
  · simp only [startContainersLoop, createContainer, startContainer, hc, hs,
      Bool.false_eq_true, if_true, if_false]
    refine ⟨_, rfl, by simp, by simp, ?_⟩
    intro x hx
    obtain ⟨hmem, hni⟩ := mem_removeAll_runtime_notin acc _ hx
    obtain ⟨hmem', hne⟩ := mem_removeContainer_runtime_ne hmem
    rcases List.mem_append.mp hmem' with h' | h'
    · exact ⟨h', hni⟩
    · simp at h'
      rw [h'] at hne
      simp at hne

/-- Claim C3: with an empty `previous_image_tag`, a deploy whose first
replica fails to create or to start returns an error, leaves the
application `failed`, leaves no tracking entry for the app, and leaves no
container at the runtime beyond those that already existed (every container
this deployment created was removed, and the old tracked ones were
removed by the initial stop). -/
theorem C3_first_replica_failure (beh : Behavior) (now : Nat) (s : OrchState)
    (app : App)
    (hCD : app.CanDeploy = true) (hImg : ¬app.currentImageID = "")
    (hPrev : app.previousImageID = "") (hT : 0 < app.targetReplicas)
    (hfail : beh.createOk s.creates = false ∨
      (beh.createOk s.creates = true ∧ beh.startOk s.starts = false)) :
    ∃ s1 d, Deploy beh now s app =
        (s1, (app.MarkDeploying now).MarkFailed now, some d, true) ∧
      ((app.MarkDeploying now).MarkFailed now).status = .failed ∧
      lookupEntry s1.appContainers app.id = none ∧
      ∀ x ∈ s1.runtime, x ∈ s.runtime := by
  obtain ⟨m, hm⟩ : ∃ m, app.targetReplicas.toNat = m + 1 :=
    ⟨app.targetReplicas.toNat - 1, by omega⟩
  have hfailB : beh.createOk (stopAppContainers app.id
        { s with freshID := s.freshID + 1 }).creates = false ∨
      (beh.createOk (stopAppContainers app.id
        { s with freshID := s.freshID + 1 }).creates = true ∧
       beh.startOk (stopAppContainers app.id
        { s with freshID := s.freshID + 1 }).starts = false) := by
    simpa using hfail
  obtain ⟨s1', heq, hApp, hDep, hRun⟩ :=
    startContainersLoop_fail_head beh (app.MarkDeploying now) 0 m []
      (Deployment.Start
        { NewDeployment s.freshID app.id app.currentImageID app.targetReplicas now with
          previousImageID := app.previousImageID } now)
      (stopAppContainers app.id { s with freshID := s.freshID + 1 }) hfailB
  have hSC : startContainers beh (app.MarkDeploying now)
      (Deployment.Start
        { NewDeployment s.freshID app.id app.currentImageID app.targetReplicas now with
          previousImageID := app.previousImageID } now)
      (stopAppContainers app.id { s with freshID := s.freshID + 1 }) =
      (s1', Deployment.Start
        { NewDeployment s.freshID app.id app.currentImageID app.targetReplicas now with
          previousImageID := app.previousImageID } now, none) := by
    show startContainersLoop beh (app.MarkDeploying now) 0
        ((app.MarkDeploying now).targetReplicas.toNat) [] _ _ = _
    rw [show (app.MarkDeploying now).targetReplicas = app.targetReplicas from rfl, hm]
    exact heq
  unfold Deploy
  rw [hCD]
  simp only [Bool.true_eq_false, if_false, if_neg hImg]
  rw [hSC]
  simp only [App.MarkDeploying, App.MarkFailed, hPrev, if_pos]
  refine ⟨_, _, rfl, by trivial, ?_, ?_⟩
  · simp [hApp]
  · intro x hx
    obtain ⟨hmem, _⟩ := hRun x hx
    exact mem_stopAppContainers_runtime app.id
      { s with freshID := s.freshID + 1 } hmem

/-- Witness for `C3_first_replica_failure` at concrete inputs. -/
theorem C3_first_replica_failure_witness :
    ∃ s1 d, Deploy behC3 7 orch0 appC3 =
        (s1, (appC3.MarkDeploying 7).MarkFailed 7, some d, true) ∧
      ((appC3.MarkDeploying 7).MarkFailed 7).status = .failed ∧
      lookupEntry s1.appContainers appC3.id = none ∧
      ∀ x ∈ s1.runtime, x ∈ orch0.runtime :=
  C3_first_replica_failure behC3 7 orch0 appC3 (by decide) (by decide) (by decide)
    (by decide) (Or.inl (by decide))

/-- If every create and start call from the current counters on succeeds,
the replica loop succeeds and extends the accumulator by exactly `n`
container ids. -/
theorem startContainersLoop_succ (beh : Behavior) (app : App) :
    ∀ (n i : Nat) (acc : List String) (d : Deployment) (s : OrchState),
    (∀ k, s.creates ≤ k → beh.createOk k = true) →
    (∀ k, s.starts ≤ k → beh.startOk k = true) →
    ∃ s1 d1 l, startContainersLoop beh app i n acc d s = (s1, d1, some (acc ++ l)) ∧
      l.length = n := by
  intro n
  induction n with
  | zero =>
    intro i acc d s hc hs
    exact ⟨s, d, [], by simp [startContainersLoop], rfl⟩
  | succ m ih =>
    intro i acc d s hc hs
    have hc0 : beh.createOk s.creates = true := hc s.creates le_rfl
    have hs0 : beh.startOk s.starts = true := hs s.starts le_rfl
    simp only [startContainersLoop, createContainer, startContainer, hc0, hs0,
      if_true]
    obtain ⟨s1, d1, l, heq, hlen⟩ :=
      ih (i + 1) (acc ++ [freshContainerID s.freshID])
        (d.AddContainerID ((freshContainerID s.freshID).take 12))
        { s with
          runtime := s.runtime ++
            [⟨freshContainerID s.freshID, clientNamePre ++ app.GetContainerName i⟩],
          freshID := s.freshID + 1,
          creates := s.creates + 1,
          starts := s.starts + 1,
          trace := (s.trace ++ [Op.create (app.GetContainerName i)]) ++
            [Op.start (freshContainerID s.freshID)] }
        (fun k hk => hc k (by simp at hk; omega))
        (fun k hk => hs k (by simp at hk; omega))
    refine ⟨s1, d1, freshContainerID s.freshID :: l, ?_, by simp [hlen]⟩
    rw [heq]
    simp

/-- If replicas 0..jr-1 succeed but replica jr fails to create (or to
start), the loop fails while preserving the tracking map and registry, and
afterwards every further create/start call succeeds (given that they
succeed beyond the failure point). -/
theorem startContainersLoop_fail (beh : Behavior) (app : App) :
    ∀ (jr i n : Nat) (acc : List String) (d : Deployment) (s : OrchState),
    jr < n →
    (∀ k, k < jr → beh.createOk (s.creates + k) = true) →
    (∀ k, k < jr → beh.startOk (s.starts + k) = true) →
    (∀ k, s.creates + jr + 1 ≤ k → beh.createOk k = true) →
    ((beh.createOk (s.creates + jr) = false ∧
        (∀ k, s.starts + jr ≤ k → beh.startOk k = true)) ∨
     (beh.createOk (s.creates + jr) = true ∧ beh.startOk (s.starts + jr) = false ∧
        (∀ k, s.starts + jr + 1 ≤ k → beh.startOk k = true))) →
    ∃ s1 d1, startContainersLoop beh app i n acc d s = (s1, d1, none) ∧
      s1.appContainers = s.appContainers ∧ s1.deployments = s.deployments ∧
      (∀ k, s1.creates ≤ k → beh.createOk k = true) ∧
      (∀ k, s1.starts ≤ k → beh.startOk k = true) := by
  intro jr
  induction jr with
  | zero =>
    intro i n acc d s hn h1 h2 h4 hdisj
    obtain ⟨m, rfl⟩ : ∃ m, n = m + 1 := ⟨n - 1, by omega⟩
    simp only [Nat.add_zero] at h4 hdisj
    rcases hdisj with ⟨hcA, hsA⟩ | ⟨hcB, hsB, hsB'⟩
    · simp only [startContainersLoop, createContainer, hcA, Bool.false_eq_true,
        if_false]
      refine ⟨_, _, rfl, by simp, by simp, ?_, ?_⟩
      · intro k hk
        simp at hk
        exact h4 k (by omega)
      · intro k hk
        simp at hk
        exact hsA k (by omega)
    · simp only [startContainersLoop, createContainer, startContainer, hcB, hsB,
        Bool.false_eq_true, if_true, if_false]
      refine ⟨_, _, rfl, by simp, by simp, ?_, ?_⟩
      · intro k hk
        simp at hk
        exact h4 k (by omega)
      · intro k hk
        simp at hk
        exact hsB' k (by omega)
  | succ jr ih =>
    intro i n acc d s hn h1 h2 h4 hdisj
    obtain ⟨m, rfl⟩ : ∃ m, n = m + 1 := ⟨n - 1, by omega⟩
    have hc0 : beh.createOk s.creates = true := by
      have := h1 0 (by omega)
      simpa using this
    have hs0 : beh.startOk s.starts = true := by
      have := h2 0 (by omega)
      simpa using this
    simp only [startContainersLoop, createContainer, startContainer, hc0, hs0,
      if_true]
    set cid := freshContainerID s.freshID with hcid
    set sZ : OrchState := { s with
      runtime := s.runtime ++ [⟨cid, clientNamePre ++ app.GetContainerName i⟩],
      freshID := s.freshID + 1, creates := s.creates + 1, starts := s.starts + 1,
      trace := (s.trace ++ [Op.create (app.GetContainerName i)]) ++ [Op.start cid] }
      with hsZ
    have hZc : sZ.creates = s.creates + 1 := by rw [hsZ]
    have hZs : sZ.starts = s.starts + 1 := by rw [hsZ]
    have harith1 : sZ.creates + jr = s.creates + (jr + 1) := by rw [hZc]; omega
    have harith2 : sZ.starts + jr = s.starts + (jr + 1) := by rw [hZs]; omega
    have h1' : ∀ k, k < jr → beh.createOk (sZ.creates + k) = true := by
      intro k hk
      rw [hZc, show s.creates + 1 + k = s.creates + (k + 1) from by omega]
      exact h1 (k + 1) (by omega)
    have h2' : ∀ k, k < jr → beh.startOk (sZ.starts + k) = true := by
      intro k hk
      rw [hZs, show s.starts + 1 + k = s.starts + (k + 1) from by omega]
      exact h2 (k + 1) (by omega)
    have h4' : ∀ k, sZ.creates + jr + 1 ≤ k → beh.createOk k = true := by
      intro k hk
      rw [harith1] at hk
      exact h4 k hk
    have hdisj' : (beh.createOk (sZ.creates + jr) = false ∧
        (∀ k, sZ.starts + jr ≤ k → beh.startOk k = true)) ∨
        (beh.createOk (sZ.creates + jr) = true ∧
         beh.startOk (sZ.starts + jr) = false ∧
         (∀ k, sZ.starts + jr + 1 ≤ k → beh.startOk k = true)) := by
      rcases hdisj with ⟨ha, hb⟩ | ⟨ha, hb, hcT⟩
      · left
        refine ⟨by rw [harith1]; exact ha, ?_⟩
        intro k hk
        rw [harith2] at hk
        exact hb k hk
      · right
        refine ⟨by rw [harith1]; exact ha, by rw [harith2]; exact hb, ?_⟩
        intro k hk
        rw [harith2] at hk
        exact hcT k hk
    obtain ⟨s1, d1, heq, hA, hD, hC, hS⟩ :=
      ih (i + 1) m (acc ++ [cid]) (d.AddContainerID (cid.take 12)) sZ
        (by omega) h1' h2' h4' hdisj'
    refine ⟨s1, d1, heq, ?_, ?_, hC, hS⟩
    · rw [hA, hsZ]
    · rw [hD, hsZ]

/-- If the app has a previous image and every create/start call from the
current counters on succeeds, `rollback` succeeds: the app comes back
`running` on the previous image with `target_replicas` replicas, and its
previous tag now holds the failed image. -/
theorem rollback_success (beh : Behavior) (now : Nat) (s : OrchState) (app : App)
    (hPrev : ¬app.previousImageID = "")
    (hC : ∀ k, s.creates ≤ k → beh.createOk k = true)
    (hS : ∀ k, s.starts ≤ k → beh.startOk k = true) :
    ∃ s2 app2, rollback beh now s app = (s2, app2, false) ∧
      app2.status = .running ∧
      app2.replicas = (app.targetReplicas.toNat : Int) ∧
      app2.currentImageID = app.previousImageID ∧
      app2.previousImageID = app.currentImageID := by
  have hRB1 : app.Rollback now =
      ({ app with currentImageID := app.previousImageID,
                  previousImageID := app.currentImageID, updatedAt := now }, true) := by
    unfold App.Rollback
    rw [if_neg hPrev]
  obtain ⟨s2, d2f, l, heq2, hlen⟩ :=
    startContainersLoop_succ beh
      { app with currentImageID := app.previousImageID,
                 previousImageID := app.currentImageID, updatedAt := now }
      app.targetReplicas.toNat 0 []
      (Deployment.Start
        { NewDeployment s.freshID app.id app.previousImageID app.targetReplicas now with
          rollbackReason := "automatic rollback after failed deployment" } now)
      { s with freshID := s.freshID + 1 }
      (fun k hk => hC k hk) (fun k hk => hS k hk)
  have hSC2 : startContainers beh
      { app with currentImageID := app.previousImageID,
                 previousImageID := app.currentImageID, updatedAt := now }
      (Deployment.Start
        { NewDeployment s.freshID app.id app.previousImageID app.targetReplicas now with
          rollbackReason := "automatic rollback after failed deployment" } now)
      { s with freshID := s.freshID + 1 } = (s2, d2f, some ([] ++ l)) := by
    show startContainersLoop beh _ 0
        (({ app with currentImageID := app.previousImageID,
                     previousImageID := app.currentImageID,
                     updatedAt := now } : App).targetReplicas.toNat) [] _ _ = _
    exact heq2
  unfold rollback
  rw [hRB1]
  dsimp only
  rw [hSC2]
  dsimp only
  refine ⟨_, _, rfl, rfl, ?_, rfl, rfl⟩
  simp [App.MarkRunning, hlen]

/-- Claim C2: with a non-empty `previous_image_tag`, a deploy in which
replica `jr` (e.g. the second, jr = 1) fails to create or to start, while
every later runtime call succeeds, returns an error, but the subsequent
rollback leaves the application `running` with `replicas` equal to the
target count and with the pre-deploy previous image as its current image. -/
theorem C2_failed_deploy_rolls_back (beh : Behavior) (now : Nat) (s : OrchState)
    (app : App) (jr : Nat)
    (hCD : app.CanDeploy = true) (hImg : ¬app.currentImageID = "")
    (hPrev : ¬app.previousImageID = "")
    (hjr : jr < app.targetReplicas.toNat)
    (h1 : ∀ k, k < jr → beh.createOk (s.creates + k) = true)
    (h2 : ∀ k, k < jr → beh.startOk (s.starts + k) = true)
    (h4 : ∀ k, s.creates + jr + 1 ≤ k → beh.createOk k = true)
    (hdisj : (beh.createOk (s.creates + jr) = false ∧
        (∀ k, s.starts + jr ≤ k → beh.startOk k = true)) ∨
      (beh.createOk (s.creates + jr) = true ∧ beh.startOk (s.starts + jr) = false ∧
        (∀ k, s.starts + jr + 1 ≤ k → beh.startOk k = true))) :
    ∃ s1 app1 d, Deploy beh now s app = (s1, app1, some d, true) ∧
      app1.status = .running ∧ app1.replicas = app.targetReplicas ∧
      app1.currentImageID = app.previousImageID := by
  have h1B : ∀ k, k < jr → beh.createOk
      ((stopAppContainers app.id { s with freshID := s.freshID + 1 }).creates + k) = true := by
    intro k hk
    simpa using h1 k hk
  have h2B : ∀ k, k < jr → beh.startOk
      ((stopAppContainers app.id { s with freshID := s.freshID + 1 }).starts + k) = true := by
    intro k hk
    simpa using h2 k hk
  have h4B : ∀ k,
      (stopAppContainers app.id { s with freshID := s.freshID + 1 }).creates + jr + 1 ≤ k →
      beh.createOk k = true := by
    intro k hk
    simp at hk
    exact h4 k hk
  have hdisjB : (beh.createOk
        ((stopAppContainers app.id { s with freshID := s.freshID + 1 }).creates + jr) = false ∧
      (∀ k, (stopAppContainers app.id { s with freshID := s.freshID + 1 }).starts + jr ≤ k →
        beh.startOk k = true)) ∨
      (beh.createOk
        ((stopAppContainers app.id { s with freshID := s.freshID + 1 }).creates + jr) = true ∧
       beh.startOk
        ((stopAppContainers app.id { s with freshID := s.freshID + 1 }).starts + jr) = false ∧
       (∀ k, (stopAppContainers app.id { s with freshID := s.freshID + 1 }).starts + jr + 1 ≤ k →
        beh.startOk k = true)) := by
    simpa using hdisj
  obtain ⟨s1', d1', heq1, hA, hD, hC, hS⟩ :=
    startContainersLoop_fail beh (app.MarkDeploying now) jr 0 app.targetReplicas.toNat []
      (Deployment.Start
        { NewDeployment s.freshID app.id app.currentImageID app.targetReplicas now with
          previousImageID := app.previousImageID } now)
      (stopAppContainers app.id { s with freshID := s.freshID + 1 })
      hjr h1B h2B h4B hdisjB
  have hSC : startContainers beh (app.MarkDeploying now)
      (Deployment.Start
        { NewDeployment s.freshID app.id app.currentImageID app.targetReplicas now with
          previousImageID := app.previousImageID } now)
      (stopAppContainers app.id { s with freshID := s.freshID + 1 }) =
      (s1', d1', none) := by
    show startContainersLoop beh (app.MarkDeploying now) 0
        ((app.MarkDeploying now).targetReplicas.toNat) [] _ _ = _
    exact heq1
  have hPrev2 : ¬((app.MarkDeploying now).MarkFailed now).previousImageID = "" := hPrev
  obtain ⟨s2, app2, hRB, hst, hrep, hcur, hpv⟩ :=
    rollback_success beh now s1' ((app.MarkDeploying now).MarkFailed now) hPrev2 hC hS
  unfold Deploy
  rw [hCD]
  simp only [Bool.true_eq_false, if_false, if_neg hImg]
  rw [hSC]
  dsimp only
  rw [if_neg hPrev2]
  rw [hRB]
  dsimp only
  refine ⟨_, app2, _, rfl, hst, ?_, ?_⟩
  · rw [hrep]
    have : ((app.MarkDeploying now).MarkFailed now).targetReplicas = app.targetReplicas := rfl
    rw [this]
    omega
  · exact hcur

/-- Witness for `C2_failed_deploy_rolls_back` at concrete inputs: the second
replica's create fails, the rollback succeeds. -/
theorem C2_failed_deploy_rolls_back_witness :
    ∃ s1 app1 d, Deploy behC2 9 orch0 appC2 = (s1, app1, some d, true) ∧
      app1.status = .running ∧ app1.replicas = appC2.targetReplicas ∧
      app1.currentImageID = appC2.previousImageID :=
  C2_failed_deploy_rolls_back behC2 9 orch0 appC2 1 (by decide) (by decide)
    (by decide) (by decide)
    (fun k hk => by
      have hk0 : k = 0 := by omega
      subst hk0
      decide)
    (fun _ _ => rfl)
    (fun k hk => by
      have hk2 : 0 + 1 + 1 ≤ k := hk
      show (!(k == 1)) = true
      simp
      omega)
    (Or.inl ⟨by decide, fun _ _ => rfl⟩)

@[simp]
theorem createContainer_fst_appContainers (beh : Behavior) (cname : String)
    (s : OrchState) : (createContainer beh cname s).1.appContainers = s.appContainers := by
  simp only [createContainer]
  split <;> rfl

@[simp]
theorem startContainer_fst_appContainers (beh : Behavior) (cid : String)
    (s : OrchState) : (startContainer beh cid s).1.appContainers = s.appContainers := rfl

/-- A successful scale-up loop grows the app's tracking entry by exactly
`n` containers. -/
theorem scaleUpLoop_entry_len (beh : Behavior) (a : App) (sr : Nat) :
    ∀ (n j : Nat) (s sF : OrchState),
    scaleUpLoop beh a sr j n s = (sF, none) →
    (getContainers sF a.id).length = (getContainers s a.id).length + n := by
  intro n
  induction n with
  | zero =>
    intro j s sF hL
    simp only [scaleUpLoop] at hL
    injection hL with h1 _
    subst h1
    simp
  | succ m ih =>
    intro j s sF hL
    simp only [scaleUpLoop] at hL
    split at hL
    · simp at hL
    · split at hL
      · simp at hL
      · rename_i x1 sA cid heq1 x2 sB heq2
        have hlen4 := ih (j + 1) _ sF hL
        have e3 : sB.appContainers = sA.appContainers := by
          have hq := congrArg (fun p => p.1.appContainers) heq2
          simpa using hq.symm
        have e2 : sA.appContainers = s.appContainers := by
          have hq := congrArg (fun p => p.1.appContainers) heq1
          simp at hq
          exact hq.symm
        rw [hlen4]
        have egoal : getContainers
            { appContainers := setEntry sB.appContainers a.id (getContainers sB a.id ++ [cid]),
              deployments := sB.deployments, runtime := sB.runtime, freshID := sB.freshID,
              creates := sB.creates, starts := sB.starts, trace := sB.trace } a.id =
            getContainers sB a.id ++ [cid] := by
          simp only [getContainers, lookupEntry_setEntry_self, Option.getD_some]
        rw [egoal]
        simp only [List.length_append, List.length_cons, List.length_nil, getContainers]
        rw [e3, e2]
        omega

/-- A successful `scaleUp` grows the tracking entry by `count` and only sets
`Replicas` on the app. -/
theorem scaleUp_ok (beh : Behavior) (a : App) (cur : List String) (count : Nat)
    (s sU : OrchState) (appU : App)
    (h : scaleUp beh a cur count s = (sU, appU, none)) :
    (getContainers sU a.id).length = (getContainers s a.id).length + count ∧
    appU = { a with replicas := ((cur.length + count : Nat) : Int) } := by
  unfold scaleUp at h
  split at h
  · simp at h
  · rename_i x sL heqL
    have hs := congrArg (fun p => p.1) h
    have ha := congrArg (fun p => p.2.1) h
    dsimp at hs ha
    constructor
    · rw [← hs]
      exact scaleUpLoop_entry_len beh a cur.length count 0 s sL heqL
    · rw [← ha]

/-- `scaleDown` truncates the tracking entry to the kept head of the list. -/
theorem scaleDown_fst_entry (a : App) (cur : List String) (count : Nat) (s : OrchState) :
    getContainers (scaleDown a cur count s).1 a.id = cur.take (cur.length - count) := by
  unfold scaleDown
  simp [getContainers, lookupEntry_setEntry_self]

/-- `scaleDown` never errors and only sets `Replicas` on the app. -/
theorem scaleDown_snd (a : App) (cur : List String) (count : Nat) (s : OrchState) :
    (scaleDown a cur count s).2 =
      ({ a with replicas := ((cur.length - count : Nat) : Int) }, none) := rfl

/-- Claim C5: scaling is idempotent — if `Scale(app, n)` succeeds, running
`Scale` again with the same target returns success and the very same state
and application record (in particular the runtime-call trace inside the
state is unchanged, so the second call performs no container operations). -/
theorem C5_scale_idempotent (beh beh2 : Behavior) (now now2 : Nat)
    (s : OrchState) (app : App) (n : Int) (s1 : OrchState) (app1 : App)
    (h0 : 0 ≤ n) (h10 : n ≤ 10)
    (h : Scale beh now s app n = (s1, app1, none)) :
    Scale beh2 now2 s1 app1 n = (s1, app1, none) := by
  unfold Scale at h
  by_cases hn0 : n < 0
  · rw [if_pos hn0] at h
    simp at h
  rw [if_neg hn0] at h
  by_cases hn10 : 10 < n
  · rw [if_pos hn10] at h
    simp at h
  rw [if_neg hn10] at h
  by_cases hImg : app.currentImageID = "" ∧ 0 < n
  · rw [if_pos hImg] at h
    simp at h
  rw [if_neg hImg] at h
  by_cases hEq : n = ((getContainers s app.id).length : Int)
  · rw [if_pos hEq] at h
    have hfst : s = s1 := congrArg (fun p => p.1) h
    have hsnd : app = app1 := by
      have := congrArg (fun p => p.2.1) h
      simpa using this
    subst hfst
    subst hsnd
    unfold Scale
    rw [if_neg hn0, if_neg hn10, if_neg hImg, if_pos hEq]
  · rw [if_neg hEq] at h
    dsimp only at h
    by_cases hlt : ((getContainers s app.id).length : Int) < n
    · rw [if_pos hlt] at h
      have h0n : 0 < n := by
        have hnn : (0 : Int) ≤ ((getContainers s app.id).length : Int) := by positivity
        omega
      split at h
      · simp at h
      · rename_i x sv appv heq
        rw [if_pos h0n] at h
        obtain ⟨hlen, happ⟩ := scaleUp_ok beh _ _ _ _ _ _ heq
        have hs1 : sv = s1 := congrArg (fun p => p.1) h
        have happ1 : ({ appv with replicas := n }).MarkRunning now = app1 := by
          have := congrArg (fun p => p.2.1) h
          simpa using this
        have himg1 : app1.currentImageID = app.currentImageID := by
          rw [← happ1, happ]
          rfl
        have hid1 : app1.id = app.id := by
          rw [← happ1, happ]
          rfl
        have g3 : ¬(app1.currentImageID = "" ∧ 0 < n) := by
          rw [himg1]
          exact hImg
        have g4 : n = ((getContainers s1 app1.id).length : Int) := by
          rw [hid1, ← hs1]
          have hg : (getContainers sv app.id).length =
              (getContainers s app.id).length +
                (n - ((getContainers s app.id).length : Int)).toNat := hlen
          rw [hg]
          omega
        unfold Scale
        rw [if_neg hn0, if_neg hn10, if_neg g3, if_pos g4]
    · rw [if_neg hlt] at h
      split at h
      · rename_i x sv appv e heq
        have := congrArg (fun p => p.2.2) heq
        simp [scaleDown_snd] at this
      · rename_i x sv appv heq
        have hs1v : (scaleDown { app with targetReplicas := n } (getContainers s app.id)
            ((((getContainers s app.id).length : Int)) - n).toNat s).1 = sv :=
          congrArg (fun p => p.1) heq
        have happv : (scaleDown { app with targetReplicas := n } (getContainers s app.id)
            ((((getContainers s app.id).length : Int)) - n).toNat s).2.1 = appv :=
          congrArg (fun p => p.2.1) heq
        have hs1 : sv = s1 := congrArg (fun p => p.1) h
        have happ1 : (if 0 < n then ({ appv with replicas := n }).MarkRunning now
            else ({ appv with replicas := n }).MarkStopped now) = app1 := by
          have := congrArg (fun p => p.2.1) h
          simpa using this
        have happv2 : appv = { { app with targetReplicas := n } with
            replicas := (((getContainers s app.id).length -
              ((((getContainers s app.id).length : Int)) - n).toNat : Nat) : Int) } := by
          rw [← happv, scaleDown_snd]
        have himg1 : app1.currentImageID = app.currentImageID := by
          rw [← happ1]
          by_cases h0n : 0 < n
          · rw [if_pos h0n, happv2]
            rfl
          · rw [if_neg h0n, happv2]
            rfl
        have hid1 : app1.id = app.id := by
          rw [← happ1]
          by_cases h0n : 0 < n
          · rw [if_pos h0n, happv2]
            rfl
          · rw [if_neg h0n, happv2]
            rfl
        have g3 : ¬(app1.currentImageID = "" ∧ 0 < n) := by
          rw [himg1]
          exact hImg
        have g4 : n = ((getContainers s1 app1.id).length : Int) := by
          rw [hid1, ← hs1, ← hs1v]
          have hsd := scaleDown_fst_entry { app with targetReplicas := n }
            (getContainers s app.id)
            ((((getContainers s app.id).length : Int)) - n).toNat s
          dsimp at hsd
          rw [hsd]
          rw [List.length_take]
          omega
        unfold Scale
        rw [if_neg hn0, if_neg hn10, if_neg g3, if_pos g4]

/-- Witness for `C5_scale_idempotent`: scale an app with no containers to
one replica, then scale to one replica again. -/
theorem C5_scale_idempotent_witness :
    Scale behAllOk 4 (Scale behAllOk 3 orch0 appC5 1).1
        (Scale behAllOk 3 orch0 appC5 1).2.1 1 =
      ((Scale behAllOk 3 orch0 appC5 1).1, (Scale behAllOk 3 orch0 appC5 1).2.1, none) :=
  C5_scale_idempotent behAllOk behAllOk 3 4 orch0 appC5 1
    (Scale behAllOk 3 orch0 appC5 1).1 (Scale behAllOk 3 orch0 appC5 1).2.1
    (by decide) (by decide) (by decide)

/-- Witness for `C10_remove_route_total_on_unknown_ids` at concrete inputs. -/
theorem C10_remove_route_total_on_unknown_ids_witness :
    RemoveRoute router0 42 =
      ({ router0 with
         file := some (convertToYAML router0.domain (router0.routes.map (fun p => p.2))) },
       none) ∧
    UpdateReplicas router0 42 [] = (router0, some ("route not found for app " ++ toString 42)) :=
  ⟨(C10_remove_route_total_on_unknown_ids router0 42 (by decide)).1 (by decide),
   (C10_remove_route_total_on_unknown_ids router0 42 (by decide)).2 []⟩

end NanoPaas
